import Mathlib

/-!
Verification of the chat-routing backend (bedrock-mcp-backend-multi-herramienta).

This file gives a shallow embedding of the routing, tool-client, validation,
file-resolution and storage-key logic of the repository and proves or refutes
the specified properties about them.  External effects (HTTP calls to the MCP
tool service, Bedrock model invocations, the filesystem, S3, the clock and the
UUID generator) are modelled as explicit inputs: each embedded endpoint is a
pure function of the request plus the outcomes the external collaborators
would produce, and it additionally returns the ordered trace of outbound
calls it makes, so that claims about "exactly one fallback call" are about an
observable value.
-/

namespace Py

/-- Does `needle` occur as a contiguous infix of `hay`?  Recursion on `hay`. -/
def hasInfix : List Char → List Char → Bool
  | [], needle => needle.isEmpty
  | c :: t, needle => needle.isPrefixOf (c :: t) || hasInfix t needle

/-- Python substring containment `pat in s` (note the argument order: the
haystack comes first). -/
def strContains (s pat : String) : Bool :=
  hasInfix s.data pat.data

/-- Python `str.lower()` restricted to the ASCII range, which is all the
keyword lists use. -/
def pyLower (s : String) : String :=
  ⟨s.data.map Char.toLower⟩

/-- The whitespace characters stripped by Python `str.strip()`. -/
def pyIsSpace (c : Char) : Bool :=
  c = ' ' || c = '\t' || c = '\n' || c = '\r' || c = '\x0b' || c = '\x0c'

/-- Python `str.strip()`: drop whitespace from both ends. -/
def pyStrip (s : String) : String :=
  ⟨((s.data.dropWhile pyIsSpace).reverse.dropWhile pyIsSpace).reverse⟩

/-- Python `len(text.split(chr(10)))`: one more than the number of newline
characters in the text. -/
def countLines (s : String) : Nat :=
  (s.data.filter (· = '\n')).length + 1

/-- Python `x or d` for an optional string `x`: both a missing value and an
empty string fall back to the default. -/
def pyOr (x : Option String) (d : String) : String :=
  match x with
  | some s => if s.isEmpty then d else s
  | none => d

end Py

/-- Outcome of one `requests.post` / `aiohttp` HTTP round trip, as seen by a
client: either a response with a status code and a decoded body, or a raised
exception (timeouts and connection errors) carrying its message. -/
inductive HttpOutcome (α : Type) where
  | resp (status : Nat) (body : α)
  | exn (msg : String)

namespace SecurityEnh

/-! Embedding of `backend/security_enhancements.py`.  The regex battery of
`dangerous_patterns` is abstracted as a boolean parameter `dangerous`; every
other branch of `InputValidator.validate_input` is translated literally.
The rate limiter and anomaly detector are stateful and clock-driven, so the
rate-limit verdict enters as the boolean `rateOk`; the anomaly detector only
ever appends warnings and never affects validity, so it is omitted. -/

/-- `InputValidator.max_message_length`. -/
def max_message_length : Nat := 10000

/-- Is a character matched by the control-character class
`[\x00-\x08\x0B\x0C\x0E-\x1F\x7F]` removed by `sanitize_string`? -/
def ctrlChar (c : Char) : Bool :=
  c.toNat ≤ 0x08 || c.toNat = 0x0B || c.toNat = 0x0C ||
    (0x0E ≤ c.toNat && c.toNat ≤ 0x1F) || c.toNat = 0x7F

/-- HTML escaping of one character as done by `sanitize_string`. -/
def escapeAngle (c : Char) : List Char :=
  if c = '<' then ['&', 'l', 't', ';']
  else if c = '>' then ['&', 'g', 't', ';']
  else [c]

/-- `InputValidator.sanitize_string`: remove control characters, escape the
angle brackets, then strip surrounding whitespace. -/
def sanitize_string (text : String) : String :=
  Py.pyStrip ⟨((text.data.filter (fun c => !ctrlChar c)).map escapeAngle).flatten⟩

/-- Result of `InputValidator.validate_input` for the message field.
`sanitizedMessage` is the `sanitized_data["message"]` entry, produced only on
success. -/
structure ValidationResult where
  valid : Bool
  errors : List String
  sanitizedMessage : Option String

/-- `InputValidator.validate_input`, specialised to the message checks (the
model/temperature/max_tokens clamps cannot fail for a well-typed request).
`dangerous` abstracts the `dangerous_patterns` regex scan. -/
def validate_input (dangerous : String → Bool) (message : String) : ValidationResult :=
  if message.isEmpty then
    { valid := false, errors := ["Message is required and must be string"],
      sanitizedMessage := none }
  else if message.length > max_message_length then
    { valid := false, errors := ["Message too long (max 10000 chars)"],
      sanitizedMessage := none }
  else if dangerous message then
    { valid := false, errors := ["Potentially dangerous content detected"],
      sanitizedMessage := none }
  else
    { valid := true, errors := [], sanitizedMessage := some (sanitize_string message) }

/-- Result of `SecurityManager.validate_request`.  Note that the dictionary it
returns holds only `valid`, `errors` and `warnings`: the `sanitized_data`
produced by `validate_input` is not copied into it. -/
structure SecurityResult where
  valid : Bool
  errors : List String

/-- `SecurityManager.validate_request`: rate limiting, then input validation
(anomaly detection only adds warnings and the audit log is a side effect). -/
def validate_request (rateOk : Bool) (dangerous : String → Bool) (message : String) :
    SecurityResult :=
  let rateErrors := if rateOk then [] else ["Rate limit exceeded"]
  let v := validate_input dangerous message
  { valid := rateOk && v.valid,
    errors := rateErrors ++ (if v.valid then [] else v.errors) }

/-- The HTTP status chosen by the q-style chat endpoint for a failed security
validation: 429 when the stringified error list mentions a rate limit,
otherwise 400. -/
def errorStatus (errors : List String) : Nat :=
  if errors.any (fun e => Py.strContains e "Rate limit") then 429 else 400

end SecurityEnh

namespace MainPy

/-! Embedding of `backend/main.py`: the keyword classifiers, the MCP tool
client and the `/chat` orchestration. -/

/-- The `mcp_triggers` list of `should_use_mcp`. -/
def mcp_triggers : List String :=
  ["diagrama", "diagram", "arquitectura visual", "esquema", "blueprint",
   "costos detallados", "costs", "pricing", "presupuesto", "budget",
   "proyecto completo", "implementación", "entregables", "deliverables",
   "documentación", "plan de migración", "migration plan"]

/-- The `bedrock_triggers` list of `should_use_mcp`. -/
def bedrock_triggers : List String :=
  ["hola", "hello", "hi", "qué tal", "como estas",
   "gracias", "thanks", "ok", "entiendo", "perfecto",
   "explica", "explain", "qué es", "what is", "cómo funciona"]

/-- `should_use_mcp`: scan the conversational triggers first (first match
short-circuits to the direct path), then the deliverable triggers, else
default to the direct path. -/
def should_use_mcp (message : String) : Bool × String :=
  let ml := Py.pyLower message
  match bedrock_triggers.find? (fun t => Py.strContains ml t) with
  | some t => (false, "Consulta conversacional: \x27" ++ t ++ "\x27")
  | none =>
    match mcp_triggers.find? (fun t => Py.strContains ml t) with
    | some t => (true, "Entregables solicitados: \x27" ++ t ++ "\x27")
    | none => (false, "Consulta técnica - Bedrock directo")

/-- The `deliverable_triggers` list of `should_generate_deliverables`. -/
def deliverable_triggers : List String :=
  ["diagrama", "diagram", "esquema", "blueprint", "visual",
   "costos detallados", "detailed costs", "presupuesto completo",
   "proyecto completo", "full project", "implementación completa",
   "entregables", "deliverables", "documentos", "documents"]

/-- `should_generate_deliverables`: first matching trigger wins. -/
def should_generate_deliverables (message : String) : Bool × String :=
  let ml := Py.pyLower message
  match deliverable_triggers.find? (fun t => Py.strContains ml t) with
  | some t => (true, "Entregables específicos: \x27" ++ t ++ "\x27")
  | none => (false, "Solo consulta - sin entregables")

/-- One entry of the `toolResult.content` list as `main.py` reads it:
`text = some t` when the item has a `text` key. -/
structure McItem where
  text : Option String

/-- The dictionary returned by `call_mcp_tool_async`: an `error` entry, a
`content` entry, either, or neither (`data.get("toolResult", {})` can be
empty). -/
structure McpResult where
  error : Option String
  content : Option (List McItem)

/-- `call_mcp_tool_async`: a 200 response yields the `toolResult` payload,
any other status yields an error dictionary, and a raised exception (timeout
or connection error) is converted to an error dictionary as well. -/
def call_mcp_tool_async (r : HttpOutcome McpResult) : McpResult :=
  match r with
  | .resp status toolResult =>
    if status = 200 then toolResult
    else { error := some ("MCP error: " ++ toString status), content := none }
  | .exn e => { error := some e, content := none }

/-- Is a text fragment the metadata-only acknowledgement filtered out when
assembling the MCP response (it mentions the tool ran successfully and has
fewer than 10 lines)? -/
def metadataOnly (text : String) : Bool :=
  Py.strContains text "prompt_understanding ejecutado exitosamente" &&
    Py.countLines text < 10

/-- The `final_response` accumulation loop of `chat_endpoint`: concatenate
each text fragment that is not metadata-only, newline-terminated.  The S3-URL
regex scan that runs in the same loop only populates the `s3_files` list of
the response and is not modelled (no claim concerns it). -/
def buildFinalResponse (items : List McItem) : String :=
  items.foldl
    (fun acc it =>
      match it.text with
      | some t => if metadataOnly t then acc else acc ++ t ++ "\n"
      | none => acc)
    ""

/-- The usable-content test of `chat_endpoint`:
`final_response.strip() and len(final_response.strip()) > 100`. -/
def usableContent (items : List McItem) : Bool :=
  let fr := Py.pyStrip (buildFinalResponse items)
  !fr.isEmpty && decide (100 < fr.length)

/-- Did the MCP call produce a result `main.py` keeps: no `error` entry, a
`content` entry, and usable content? -/
def usableMcp (r : McpResult) : Bool :=
  match r.error, r.content with
  | none, some items => usableContent items
  | _, _ => false

/-- The request fields of `main.py` that the routing logic reads. -/
structure MRequest where
  message : String
  use_mcp : Bool
  generate_deliverables : Bool

/-- The decision state after the analysis step of `chat_endpoint` (lines
233-252): classifier outputs, then the manual overrides, which replace the
recorded reasons. -/
structure Analysis where
  use_mcp : Bool
  mcp_reason : String
  generate_deliverables : Bool
  deliverable_reason : String

/-- The analysis step of `chat_endpoint`: run both classifiers, then apply
the one-directional overrides (`use_mcp = false` forces the tool path off,
`generate_deliverables = true` forces deliverables on). -/
def analysis_step (req : MRequest) : Analysis :=
  let u := should_use_mcp req.message
  let g := should_generate_deliverables req.message
  let u := if !req.use_mcp then (false, "Deshabilitado por usuario") else u
  let g := if req.generate_deliverables then (true, "Forzado por usuario") else g
  { use_mcp := u.1, mcp_reason := u.2,
    generate_deliverables := g.1, deliverable_reason := g.2 }

/-- One outbound call made during a request. -/
inductive MCall where
  | mcp
  | bedrock
deriving DecidableEq

/-- How a request ends: an MCP-sourced reply, a Bedrock-sourced reply, or an
`HTTPException`. -/
inductive MOutcome where
  | mcpReply (response : String)
  | bedrockReply (response : String)
  | httpError (status : Nat) (detail : String)
deriving DecidableEq

/-- Result of one run of the endpoint: the outcome plus the ordered list of
outbound calls that were made. -/
structure MRun where
  outcome : MOutcome
  calls : List MCall
deriving DecidableEq

/-- The Bedrock phase shared by every path of `chat_endpoint`: one model
invocation; a raised `Bedrock error: ...` exception is caught by the outer
handler and surfaces as HTTP 500. -/
def bedrockRun (priorCalls : List MCall) (bedrock : Except String String) : MRun :=
  match bedrock with
  | .ok text => { outcome := .bedrockReply text, calls := priorCalls ++ [.bedrock] }
  | .error e =>
    { outcome := .httpError 500 ("Bedrock error: " ++ e),
      calls := priorCalls ++ [.bedrock] }

/-- The `/chat` orchestration of `main.py`.  `mcpHttp` is the HTTP outcome the
MCP call would produce if made, and `bedrock` the Bedrock outcome (`.error`
models a raised exception). -/
def chat_endpoint (req : MRequest) (mcpHttp : HttpOutcome McpResult)
    (bedrock : Except String String) : MRun :=
  let a := analysis_step req
  if a.use_mcp && a.generate_deliverables then
    let mcpResult := call_mcp_tool_async mcpHttp
    match mcpResult.error, mcpResult.content with
    | none, some items =>
      if usableContent items then
        { outcome := .mcpReply (Py.pyStrip (buildFinalResponse items)), calls := [.mcp] }
      else bedrockRun [.mcp] bedrock
    | _, _ => bedrockRun [.mcp] bedrock
  else bedrockRun [] bedrock

end MainPy

namespace MainOpt

/-! Embedding of `backend/main_optimized.py`.  The file has its own keyword
lists and, unlike `main.py`, its MCP branch has no usable-content check: a
200 tool response is returned as the reply whatever its content. -/

/-- The `mcp_triggers` list of the optimized `should_use_mcp`. -/
def mcp_triggers : List String :=
  ["diagrama", "diagram", "arquitectura", "architecture",
   "migración", "migration", "costos", "costs", "pricing",
   "diseño", "design", "infraestructura", "infrastructure",
   "proyecto", "project", "implementar", "implement"]

/-- The `bedrock_triggers` list of the optimized `should_use_mcp`. -/
def bedrock_triggers : List String :=
  ["hola", "hello", "hi", "qué tal", "como estas",
   "gracias", "thanks", "ok", "entiendo", "perfecto"]

/-- The optimized `should_use_mcp`: conversational triggers first, then the
complex-case triggers, else the direct path. -/
def should_use_mcp (message : String) : Bool × String :=
  let ml := Py.pyLower message
  match bedrock_triggers.find? (fun t => Py.strContains ml t) with
  | some t => (false, "Saludo/confirmación detectado: \x27" ++ t ++ "\x27")
  | none =>
    match mcp_triggers.find? (fun t => Py.strContains ml t) with
    | some t => (true, "Caso complejo detectado: \x27" ++ t ++ "\x27")
    | none => (false, "Consulta general - usando Bedrock directo")

/-- The `deliverable_triggers` list of the optimized
`should_generate_deliverables`. -/
def deliverable_triggers : List String :=
  ["diagrama", "diagram", "esquema", "blueprint",
   "costos", "costs", "pricing", "presupuesto", "budget",
   "implementar", "implement", "crear", "create",
   "proyecto completo", "full project", "entregables", "deliverables"]

/-- The optimized `should_generate_deliverables`. -/
def should_generate_deliverables (message : String) : Bool × String :=
  let ml := Py.pyLower message
  match deliverable_triggers.find? (fun t => Py.strContains ml t) with
  | some t => (true, "Solicitud de entregables detectada: \x27" ++ t ++ "\x27")
  | none => (false, "No se requieren entregables")

/-- The analysis step of the optimized `chat_endpoint` (lines 215-227), with
the same one-directional overrides as `main.py`. -/
def analysis_step (req : MainPy.MRequest) : MainPy.Analysis :=
  let u := should_use_mcp req.message
  let g := should_generate_deliverables req.message
  let u := if !req.use_mcp then (false, "Deshabilitado por usuario") else u
  let g := if req.generate_deliverables then (true, "Solicitado por usuario") else g
  { use_mcp := u.1, mcp_reason := u.2,
    generate_deliverables := g.1, deliverable_reason := g.2 }

/-- The `final_response` accumulation of the optimized endpoint: every text
fragment is kept, with no metadata filter. -/
def buildFinalResponse (items : List MainPy.McItem) : String :=
  items.foldl
    (fun acc it =>
      match it.text with
      | some t => acc ++ t ++ "\n"
      | none => acc)
    ""

/-- The `/chat` orchestration of `main_optimized.py`: when the tool path is
taken, the result is returned whenever the tool dictionary has no `error`
entry — even when the content is missing, empty or short — and the Bedrock
fallback runs only when an `error` entry is present. -/
def chat_endpoint (req : MainPy.MRequest) (mcpHttp : HttpOutcome MainPy.McpResult)
    (bedrock : Except String String) : MainPy.MRun :=
  let a := analysis_step req
  if a.use_mcp && a.generate_deliverables then
    let mcpResult := MainPy.call_mcp_tool_async mcpHttp
    match mcpResult.error with
    | none =>
      let fr := buildFinalResponse (mcpResult.content.getD [])
      { outcome := .mcpReply (Py.pyStrip fr), calls := [.mcp] }
    | some _ => MainPy.bedrockRun [.mcp] bedrock
  else MainPy.bedrockRun [] bedrock

end MainOpt

namespace QStyle

/-! Embedding of `backend/main_q_style.py`: the count-based intent analysis,
the aiohttp tool client, and the `/chat` endpoint with security validation. -/

/-- The `deliverable_keywords` list of `analyze_intent`. -/
def deliverable_keywords : List String :=
  ["diagrama", "diagram", "arquitectura", "architecture",
   "costo", "cost", "precio", "pricing", "presupuesto", "budget",
   "documentación", "documentation", "doc",
   "generar", "generate", "crear", "create", "diseñar", "design",
   "migración", "migration", "implementar", "implement"]

/-- The `simple_keywords` list of `analyze_intent`. -/
def simple_keywords : List String :=
  ["qué es", "what is", "cómo", "how", "por qué", "why",
   "explica", "explain", "diferencia", "difference",
   "ventajas", "advantages", "desventajas", "disadvantages"]

/-- Result of `analyze_intent`.  The confidence value is a float and no claim
depends on it, so it is omitted. -/
structure IntentAnalysis where
  intent : String
  deliverable_matches : Nat
  simple_matches : Nat
deriving DecidableEq

/-- `analyze_intent`: count keyword hits in the lower-cased message and pick
the intent by comparing the counts. -/
def analyze_intent (message : String) : IntentAnalysis :=
  let ml := Py.pyLower message
  let dm := (deliverable_keywords.filter (fun k => Py.strContains ml k)).length
  let sm := (simple_keywords.filter (fun k => Py.strContains ml k)).length
  if dm > sm && dm > 0 then
    { intent := "deliverable_request", deliverable_matches := dm, simple_matches := sm }
  else if sm > 0 then
    { intent := "information_request", deliverable_matches := dm, simple_matches := sm }
  else
    { intent := "general_conversation", deliverable_matches := dm, simple_matches := sm }

/-- One item of the MCP response content as the q-style client reads it:
either a text item, a resource item, or something else. -/
inductive QItem where
  | text (t : String)
  | resource (t : String)
  | other

/-- The content concatenation loop of the q-style `call_mcp_tool`: text items
are concatenated in order.  Resource items only feed the `s3_files` URL regex,
which no claim concerns, so their text is skipped here as it is for the
response content. -/
def qExtractContent : List QItem → String
  | [] => ""
  | .text t :: rest => t ++ qExtractContent rest
  | .resource _ :: rest => qExtractContent rest
  | .other :: rest => qExtractContent rest

/-- The flat result dictionary built by the q-style `call_mcp_tool`. -/
structure QToolResult where
  success : Bool
  content : String
  error : Option String
deriving DecidableEq

/-- The q-style `call_mcp_tool`: status 200 yields success with the
concatenated content (or a stock message when it is empty); any other status
yields `success = false` with the status recorded; a raised exception yields
`success = false` with its message recorded. -/
def call_mcp_tool (r : HttpOutcome (List QItem)) : QToolResult :=
  match r with
  | .resp status items =>
    if status = 200 then
      let c := qExtractContent items
      { success := true,
        content := if c.isEmpty then "Procesamiento MCP completado" else c,
        error := none }
    else
      { success := false, error := some ("MCP HTTP " ++ toString status),
        content := "Error en procesamiento MCP" }
  | .exn e =>
    { success := false, error := some e, content := "Error de conexión con MCP" }

/-- The request fields of `main_q_style.py` that the endpoint reads. -/
structure QRequest where
  message : String
  use_mcp : Bool
  generate_deliverables : Bool
  system_prompt : Option String

/-- The tool-path decision of the q-style endpoint (lines 349-366):
`generate_deliverables` forces the tool path; otherwise the tool path is taken
only when `use_mcp` is set and the intent analysis reports a deliverable
request. -/
def qstyle_use_mcp (req : QRequest) : Bool :=
  if req.generate_deliverables then true
  else if req.use_mcp && (analyze_intent req.message).intent == "deliverable_request" then true
  else false

/-- Outcome of the Bedrock call as `call_bedrock_with_system_prompt` reports
it: a success flag, the content, and the error text (meaningful on failure). -/
structure QBedrockResult where
  success : Bool
  content : String
  error : String

/-- One outbound call of the q-style endpoint, carrying the message text that
was forwarded (and, for Bedrock, the system prompt used). -/
inductive QCall where
  | tool (msg : String)
  | bedrock (msg : String) (systemPrompt : String)
deriving DecidableEq

/-- The message text a call forwards downstream. -/
def QCall.msg : QCall → String
  | .tool m => m
  | .bedrock m _ => m

/-- How a q-style request ends. -/
inductive QOutcome where
  | reject (status : Nat) (errors : List String)
  | reply (response : String) (system_prompt_used : Bool)
  | httpError (status : Nat) (detail : String)
deriving DecidableEq

/-- Result of one run of the q-style endpoint: the outcome, the ordered
outbound calls, and the message text handed to `analyze_intent`. -/
structure QRun where
  outcome : QOutcome
  calls : List QCall
  intentInput : Option String

/-- The q-style `/chat` endpoint.  `rateOk` and `dangerous` feed the security
validation; `current_system_prompt` is the process-wide prompt; `mcp` and
`bedrock` are the outcomes the external calls would produce.  Because
`validate_request` returns no `sanitized_data` entry, the endpoint falls back
to the original request dictionary, so the sanitized message never replaces
the original anywhere.  The `files_generated` upload loop is dead code (the
tool client never produces that key) and is not modelled. -/
def chat_endpoint (req : QRequest) (rateOk : Bool) (dangerous : String → Bool)
    (current_system_prompt : String) (mcp : HttpOutcome (List QItem))
    (bedrock : QBedrockResult) : QRun :=
  let sec := SecurityEnh.validate_request rateOk dangerous req.message
  if !sec.valid then
    { outcome := .reject (SecurityEnh.errorStatus sec.errors) sec.errors,
      calls := [], intentInput := none }
  else
    let sanitized_request := req
    let system_prompt := Py.pyOr sanitized_request.system_prompt current_system_prompt
    let _intent := analyze_intent sanitized_request.message
    if qstyle_use_mcp req then
      let mcpResult := call_mcp_tool mcp
      if mcpResult.success then
        { outcome := .reply mcpResult.content false,
          calls := [.tool req.message],
          intentInput := some sanitized_request.message }
      else if bedrock.success then
        { outcome := .reply bedrock.content true,
          calls := [.tool req.message, .bedrock req.message system_prompt],
          intentInput := some sanitized_request.message }
      else
        { outcome := .httpError 500 bedrock.error,
          calls := [.tool req.message, .bedrock req.message system_prompt],
          intentInput := some sanitized_request.message }
    else if bedrock.success then
      { outcome := .reply bedrock.content true,
        calls := [.bedrock req.message system_prompt],
        intentInput := some sanitized_request.message }
    else
      { outcome := .httpError 500 bedrock.error,
        calls := [.bedrock req.message system_prompt],
        intentInput := some sanitized_request.message }

end QStyle

namespace McpClient

/-! Embedding of `bedrock-mcp-backend/mcp_client.py`.  The result dictionary
is modelled as an insertion-ordered association list of string fields — the
`raw_text` accumulator is literally the dictionary entry with key
`"raw_text"`, as in the source.  `json.loads` is abstracted as a parameter
`parse` returning the parsed flat object on success and nothing on a
`JSONDecodeError`. -/

/-- A flat JSON-like object: an insertion-ordered association list. -/
abbrev JsonObj := List (String × String)

/-- Python dictionary read `d.get(k)`. -/
def dictGet (d : JsonObj) (k : String) : Option String :=
  (d.find? (fun p => p.1 == k)).map (·.2)

/-- Python dictionary write `d[k] = v`: replace in place when the key exists,
append otherwise. -/
def dictSet (d : JsonObj) (k v : String) : JsonObj :=
  if d.any (fun p => p.1 == k) then
    d.map (fun p => if p.1 == k then (k, v) else p)
  else d ++ [(k, v)]

/-- Python `d.update(upd)`: set every entry of `upd` in order. -/
def dictUpdate (d : JsonObj) (upd : JsonObj) : JsonObj :=
  upd.foldl (fun acc kv => dictSet acc kv.1 kv.2) d

/-- One item of `toolResult.content` as `call_mcp_tool` reads it:
`typedText t` for an item with `type = "text"` (with `t` the value of
`item.get("text", "")`), `untyped t` for an item without that type but with a
`text` entry, `other` for anything else. -/
inductive CItem where
  | typedText (t : String)
  | untyped (t : String)
  | other

/-- The content-scanning loop of `call_mcp_tool`.  A fragment that parses as
JSON is merged into the result with `update`.  A non-JSON fragment of a
`type = "text"` item is assigned to `raw_text` (overwriting any previous
value); a non-JSON fragment of an untyped item is appended to `raw_text`
newline-joined when the key already exists. -/
def scanContent (parse : String → Option JsonObj) : List CItem → JsonObj → JsonObj
  | [], acc => acc
  | .typedText t :: rest, acc =>
    (match parse t with
     | some obj => scanContent parse rest (dictUpdate acc obj)
     | none => scanContent parse rest (dictSet acc "raw_text" t))
  | .untyped t :: rest, acc =>
    (match parse t with
     | some obj => scanContent parse rest (dictUpdate acc obj)
     | none =>
       match dictGet acc "raw_text" with
       | none => scanContent parse rest (dictSet acc "raw_text" t)
       | some r => scanContent parse rest (dictSet acc "raw_text" (r ++ "\n" ++ t)))
  | .other :: rest, acc => scanContent parse rest acc

/-- Outcome of the `requests.post` call as `call_mcp_tool` sees it: a
response with status, body text and decoded `toolResult.content` items, a
timeout, or another request exception. -/
inductive ReqOutcome where
  | resp (status : Nat) (text : String) (content : List CItem)
  | timeout
  | reqError (msg : String)

/-- `call_mcp_tool` of `mcp_client.py`.  An `Except.error` value models a
raised exception reaching the caller: a non-200 status raises (the
`except Exception` clause re-raises it), as do timeouts and connection
errors.  On 200 the scanned result dictionary is returned (wrapped by the
source in `{"result": ...}`). -/
def call_mcp_tool (tool_name : String) (parse : String → Option JsonObj)
    (r : ReqOutcome) : Except String JsonObj :=
  match r with
  | .resp status text content =>
    if status ≠ 200 then
      .error ("MCP error " ++ toString status ++ ": " ++ text)
    else
      .ok (scanContent parse content [])
  | .timeout => .error ("Timeout calling MCP tool " ++ tool_name)
  | .reqError m =>
    .error ("Connection error calling MCP tool " ++ tool_name ++ ": " ++ m)

/-- The `raw_text` accumulation as the specification describes it: every
non-JSON text fragment, typed or not, is appended in original item order and
newline-joined; fragments that parse as JSON contribute nothing to it. -/
def rawTextSpec (parse : String → Option JsonObj) (items : List CItem) : Option String :=
  let frags := items.filterMap (fun it =>
    match it with
    | .typedText t => if (parse t).isNone then some t else none
    | .untyped t => if (parse t).isNone then some t else none
    | .other => none)
  match frags with
  | [] => none
  | f :: fs => some (fs.foldl (fun a b => a ++ "\n" ++ b) f)

end McpClient

namespace S3Utils

/-! Embedding of the storage-key construction of
`bedrock-mcp-backend/s3_utils.py`. -/

/-- The key built by `upload_to_s3_sync`:
`arquitecturas/{project}/{tool}/{timestamp}_{uuid8}_{filename}`, with the
timestamp and the 8-character random suffix supplied by the clock and the
UUID generator. -/
def upload_to_s3_sync_key (project_name tool_name : Option String)
    (timestamp rand filename : String) : String :=
  "arquitecturas/" ++ Py.pyOr project_name "general" ++ "/" ++
    Py.pyOr tool_name "misc" ++ "/" ++ timestamp ++ "_" ++ rand ++ "_" ++ filename

end S3Utils

namespace S3Uploader

/-! Embedding of the storage-key construction of
`backend/s3_uploader.py` (`S3FileUploader.upload_file_content`). -/

/-- `S3FileUploader.base_path`. -/
def base_path : String := "proyectos/bedrock-playground/generated-files"

/-- The per-type extension table of `upload_file_content`. -/
def extensions : List (String × String) :=
  [("diagram", ".png"), ("document", ".md"), ("json", ".json"),
   ("text", ".txt"), ("html", ".html")]

/-- The extension completion of `upload_file_content`: when the filename ends
in none of the known extensions, the extension for the file type (default
`.txt`) is appended. -/
def ensureExtension (file_type filename : String) : String :=
  if extensions.any (fun p => p.2.data.isSuffixOf filename.data) then filename
  else filename ++ (((extensions.find? (fun p => p.1 == file_type)).map (·.2)).getD ".txt")

/-- The key built by `upload_file_content`:
`{base_path}/{file_type}/{filename}`.  A timestamp and a random suffix enter
the name only when the caller supplies no filename (or an empty one). -/
def upload_file_content_key (file_type : String) (filename : Option String)
    (timestamp unique_id : String) : String :=
  let fname :=
    match filename with
    | some f => if f.isEmpty then file_type ++ "_" ++ timestamp ++ "_" ++ unique_id else f
    | none => file_type ++ "_" ++ timestamp ++ "_" ++ unique_id
  base_path ++ "/" ++ file_type ++ "/" ++ ensureExtension file_type fname

end S3Uploader

namespace FileHandler

/-! Embedding of the content resolution and per-file processing of
`bedrock-mcp-backend/file_handler.py`.  File bytes are modelled as lists of
byte values; each resolution method is an oracle where `none` covers both a
raised exception and a `None` return (the loop treats them identically and
moves on to the next method). -/

/-- Raw file bytes. -/
abbrev Bytes := List Nat

/-- One content-resolution method. -/
abbrev Method := String → Option Bytes

/-- The method loop of `_get_file_content`: try each method in order and
return the first truthy (non-empty) content; an empty result is falsy in
Python and the loop moves on. -/
def tryMethods : List Method → String → Option Bytes
  | [], _ => none
  | m :: ms, p =>
    match m p with
    | some c => if c.isEmpty then tryMethods ms p else some c
    | none => tryMethods ms p

/-- `_get_file_content`: local filesystem read, then direct URL download,
then the companion MCP file-serving endpoint, in that order. -/
def get_file_content (localRead urlFetch mcpRead : Method) (p : String) : Option Bytes :=
  tryMethods [localRead, urlFetch, mcpRead] p

/-- The resolution order as the specification describes it: the first method
that yields usable (non-empty) content wins. -/
def resolveSpec (localRead urlFetch mcpRead : Method) (p : String) : Option Bytes :=
  [localRead p, urlFetch p, mcpRead p].findSome?
    (fun r => r.bind (fun c => if c.isEmpty then none else some c))

/-- One path/URL candidate found by the reference extractor. -/
structure Candidate where
  path : String
  extension : String

/-- The record built for one successfully processed file. -/
structure Processed where
  original_path : String
  filename : String
  s3_key : String
  s3_url : String
  size_bytes : Nat
deriving DecidableEq

/-- Python `os.path.basename` for slash-separated paths. -/
def basename (p : String) : String :=
  ⟨(p.data.reverse.takeWhile (· ≠ '/')).reverse⟩

/-- `_process_single_file`: resolve the content, drop the candidate when
nothing usable was obtained, build the project-scoped key, and upload
(`upload` returns the URL, or nothing on a failed upload, which also drops
the candidate).  The timestamp and unique id come from the clock and the
UUID generator. -/
def process_single_file (resolve : String → Option Bytes)
    (upload : String → Bytes → Option String)
    (project_name timestamp unique_id : String) (c : Candidate) : Option Processed :=
  match resolve c.path with
  | none => none
  | some content =>
    if content.isEmpty then none
    else
      let original_name := basename c.path
      let s3_key := "archivos/" ++ project_name ++ "/" ++ timestamp ++ "_" ++
        unique_id ++ "_" ++ original_name
      match upload s3_key content with
      | none => none
      | some url =>
        some { original_path := c.path, filename := original_name, s3_key := s3_key,
               s3_url := url, size_bytes := content.length }

/-- The per-file loop of `process_mcp_response`: each candidate is processed
independently; a candidate whose processing yields nothing (or raises) is
skipped and the others are kept in order. -/
def process_files (resolve : String → Option Bytes)
    (upload : String → Bytes → Option String)
    (project_name timestamp unique_id : String) (cs : List Candidate) : List Processed :=
  cs.filterMap (process_single_file resolve upload project_name timestamp unique_id)

end FileHandler


/-! ## Helper lemmas -/

/-- Replacing an existing key in place makes it the first hit of `find?`. -/
theorem McpClient.find?_setExisting (k v : String) :
    ∀ d : McpClient.JsonObj, d.any (fun p => p.1 == k) = true →
      (d.map (fun p => if p.1 == k then (k, v) else p)).find? (fun p => p.1 == k) =
        some (k, v) := by
  intro d
  induction d with
  | nil => intro h; simp at h
  | cons p rest ih =>
    intro h
    rw [List.map_cons]
    by_cases hk : p.1 = k
    · rw [if_pos (by simpa using hk), List.find?_cons_of_pos _ (by simp)]
    · have hp : (p.1 == k) = false := by simpa using hk
      rw [if_neg (by simpa using hk), List.find?_cons_of_neg _ (by simp [hp])]
      exact ih (by simpa [List.any_cons, hp] using h)

/-- Appending a fresh key makes it the first hit of `find?`. -/
theorem McpClient.find?_setNew (k v : String) :
    ∀ d : McpClient.JsonObj, d.any (fun p => p.1 == k) = false →
      (d ++ [(k, v)]).find? (fun p => p.1 == k) = some (k, v) := by
  intro d h
  have hnone : d.find? (fun p => p.1 == k) = none :=
    List.find?_eq_none.mpr (fun x hx hc => by
      have hall : d.any (fun p => p.1 == k) = true := List.any_eq_true.mpr ⟨x, hx, hc⟩
      rw [hall] at h
      cases h)
  rw [List.find?_append, hnone]
  simp [List.find?_cons]

/-- Reading back a key just written into the association-list dictionary. -/
theorem McpClient.dictGet_dictSet (d : McpClient.JsonObj) (k v : String) :
    McpClient.dictGet (McpClient.dictSet d k v) k = some v := by
  unfold McpClient.dictGet McpClient.dictSet
  by_cases h : d.any (fun p => p.1 == k)
  · rw [if_pos h, McpClient.find?_setExisting k v d h]
    rfl
  · rw [if_neg h, McpClient.find?_setNew k v d (Bool.eq_false_iff.mpr h)]
    rfl

/-- Accumulation of untyped non-JSON fragments: starting from a dictionary
that already has a `raw_text` entry, the scan folds every fragment onto it,
newline-joined, in order. -/
theorem McpClient.scan_untyped_fold (parse : String → Option McpClient.JsonObj)
    (ts : List String) :
    ∀ (acc : McpClient.JsonObj) (r : String), (∀ t ∈ ts, parse t = none) →
      McpClient.dictGet acc "raw_text" = some r →
      McpClient.dictGet
          (McpClient.scanContent parse (ts.map McpClient.CItem.untyped) acc) "raw_text" =
        some (ts.foldl (fun a b => a ++ "\n" ++ b) r) := by
  induction ts with
  | nil => intro acc r _ hr; simpa [McpClient.scanContent] using hr
  | cons t ts ih =>
    intro acc r hall hr
    have ht : parse t = none := hall t (by simp)
    have hts : ∀ x ∈ ts, parse x = none := fun x hx => hall x (by simp [hx])
    simp only [List.map_cons, McpClient.scanContent, ht, hr]
    exact ih _ _ hts (McpClient.dictGet_dictSet _ _ _)

/-! ## Claim theorems -/

/-- C9: input validation accepts a message exactly at the 10000-character
maximum and rejects with the too-long validation error any message above it;
the oversized rejection fires if and only if the length strictly exceeds the
maximum, and the q-style endpoint maps that error list to HTTP 400 (not 429). -/
theorem c9_length_boundary :
    ∀ (dangerous : String → Bool) (msg : String),
      (¬ msg.isEmpty → dangerous msg = false →
        ((SecurityEnh.validate_input dangerous msg).valid = true ↔ msg.length ≤ 10000)) ∧
      (msg.length > 10000 →
        (SecurityEnh.validate_input dangerous msg).valid = false ∧
        (SecurityEnh.validate_input dangerous msg).errors =
          ["Message too long (max 10000 chars)"] ∧
        (SecurityEnh.validate_request true dangerous msg).valid = false ∧
        SecurityEnh.errorStatus (SecurityEnh.validate_request true dangerous msg).errors
          = 400) := by
  intro dangerous msg
  constructor
  · intro hne hdang
    simp only [SecurityEnh.validate_input, SecurityEnh.max_message_length, hdang]
    rw [if_neg hne]
    by_cases hlen : msg.length > 10000
    · rw [if_pos hlen]
      simpa using hlen
    · rw [if_neg hlen]
      simp
      omega
  · intro hlen
    have hne : ¬ msg.isEmpty := by
      intro he
      have : msg = "" := (String.isEmpty_iff msg).mp he
      rw [this] at hlen
      simp at hlen
    have hv : SecurityEnh.validate_input dangerous msg =
        { valid := false, errors := ["Message too long (max 10000 chars)"],
          sanitizedMessage := none } := by
      simp only [SecurityEnh.validate_input, SecurityEnh.max_message_length]
      rw [if_neg hne, if_pos hlen]
    refine ⟨by rw [hv], by rw [hv], ?_, ?_⟩
    · simp only [SecurityEnh.validate_request, hv]
      rfl
    · simp only [SecurityEnh.validate_request, hv]
      rfl

/-- Witness for C9: a 10000-character message passes validation; a
10001-character message is rejected with the too-long error and would be
answered with HTTP 400. -/
theorem c9_length_boundary_witness :
    (SecurityEnh.validate_input (fun _ => false) ⟨List.replicate 10000 'a'⟩).valid = true ∧
    (SecurityEnh.validate_input (fun _ => false) ⟨List.replicate 10001 'a'⟩).valid = false ∧
    (SecurityEnh.validate_input (fun _ => false) ⟨List.replicate 10001 'a'⟩).errors =
      ["Message too long (max 10000 chars)"] ∧
    SecurityEnh.errorStatus
      (SecurityEnh.validate_request true (fun _ => false) ⟨List.replicate 10001 'a'⟩).errors
      = 400 := by
  have hlong : (⟨List.replicate 10001 'a'⟩ : String).length > 10000 := by
    rw [String.length_mk, List.length_replicate]
    omega
  have hne : ¬ (⟨List.replicate 10000 'a'⟩ : String).isEmpty = true := by
    rw [String.isEmpty_iff]
    intro h
    have hl := congrArg String.length h
    rw [String.length_mk, List.length_replicate, String.length_empty] at hl
    exact absurd hl (by omega)
  have h1 := (c9_length_boundary (fun _ => false) ⟨List.replicate 10000 'a'⟩).1 hne rfl
  have h2 := (c9_length_boundary (fun _ => false) ⟨List.replicate 10001 'a'⟩).2 hlong
  refine ⟨h1.mpr ?_, h2.1, h2.2.1, h2.2.2.2⟩
  rw [String.length_mk, List.length_replicate]

/-- C1: in both orchestrators, a request that takes the tool path and whose
tool invocation fails makes exactly one fallback model call — the outbound
trace is exactly one MCP call followed by exactly one Bedrock call — and a
failure of that fallback surfaces as HTTP 500 with no further call. -/
theorem c1_single_fallback :
    (∀ (req : MainPy.MRequest) (h : HttpOutcome MainPy.McpResult)
        (b : Except String String),
      (MainPy.analysis_step req).use_mcp = true →
      (MainPy.analysis_step req).generate_deliverables = true →
      (MainPy.call_mcp_tool_async h).error.isSome = true →
      (MainPy.chat_endpoint req h b).calls = [.mcp, .bedrock] ∧
      (∀ e, b = .error e →
        (MainPy.chat_endpoint req h b).outcome =
          .httpError 500 ("Bedrock error: " ++ e))) ∧
    (∀ (req : QStyle.QRequest) (rateOk : Bool) (dangerous : String → Bool)
        (csp : String) (mcp : HttpOutcome (List QStyle.QItem))
        (bed : QStyle.QBedrockResult),
      (SecurityEnh.validate_request rateOk dangerous req.message).valid = true →
      QStyle.qstyle_use_mcp req = true →
      (QStyle.call_mcp_tool mcp).success = false →
      (QStyle.chat_endpoint req rateOk dangerous csp mcp bed).calls =
        [.tool req.message, .bedrock req.message (Py.pyOr req.system_prompt csp)] ∧
      (bed.success = false →
        (QStyle.chat_endpoint req rateOk dangerous csp mcp bed).outcome =
          .httpError 500 bed.error)) := by
  constructor
  · intro req h b hu hg herr
    cases he : (MainPy.call_mcp_tool_async h).error with
    | none => rw [he] at herr; cases herr
    | some e0 =>
      have hrun : MainPy.chat_endpoint req h b = MainPy.bedrockRun [.mcp] b := by
        simp only [MainPy.chat_endpoint, hu, hg, Bool.and_self, if_true, he]
      cases b with
      | ok t =>
        refine ⟨by rw [hrun]; rfl, ?_⟩
        intro e hcontra; cases hcontra
      | error e =>
        refine ⟨by rw [hrun]; rfl, ?_⟩
        intro e1 he1
        cases he1
        rw [hrun]
        rfl
  · intro req rateOk dangerous csp mcp bed hv hq hs
    simp only [QStyle.chat_endpoint, hv, hq, hs, Bool.not_true, Bool.false_eq_true,
      if_false, if_true]
    by_cases hb : bed.success = true
    · rw [if_pos hb]
      exact ⟨rfl, fun hf => absurd hb (by rw [hf]; exact Bool.false_ne_true)⟩
    · rw [if_neg hb]
      exact ⟨rfl, fun _ => rfl⟩

/-- Witness for C1: concrete runs of both endpoints in which the tool path is
taken, the tool call fails with a 5xx status, exactly one Bedrock call
follows, and a failing Bedrock call yields HTTP 500. -/
theorem c1_single_fallback_witness :
    (MainPy.chat_endpoint ⟨"necesito un diagrama", true, true⟩
        (.resp 500 ⟨none, none⟩) (.error "boom")).calls = [.mcp, .bedrock] ∧
    (MainPy.chat_endpoint ⟨"necesito un diagrama", true, true⟩
        (.resp 500 ⟨none, none⟩) (.error "boom")).outcome =
      .httpError 500 ("Bedrock error: " ++ "boom") ∧
    (QStyle.chat_endpoint ⟨"crear diagrama", true, false, none⟩ true (fun _ => false)
        "prompt" (.resp 503 []) ⟨false, "err-content", "berr"⟩).calls =
      [.tool "crear diagrama", .bedrock "crear diagrama" "prompt"] ∧
    (QStyle.chat_endpoint ⟨"crear diagrama", true, false, none⟩ true (fun _ => false)
        "prompt" (.resp 503 []) ⟨false, "err-content", "berr"⟩).outcome =
      .httpError 500 "berr" := by
  have h1 := c1_single_fallback.1 ⟨"necesito un diagrama", true, true⟩
    (.resp 500 ⟨none, none⟩) (.error "boom") (by decide) (by decide) (by decide)
  have h2 := c1_single_fallback.2 ⟨"crear diagrama", true, false, none⟩ true
    (fun _ => false) "prompt" (.resp 503 []) ⟨false, "err-content", "berr"⟩
    (by decide) (by decide) (by decide)
  exact ⟨h1.1, h1.2 "boom" rfl, h2.1, h2.2 rfl⟩

/-- C2 counterexample: the message `"explica el diagrama de costos"` contains
the conversational keyword `"explica"` (present in both the q-style
`simple_keywords` and the `main.py` `bedrock_triggers`) and the deliverable
keyword `"diagrama"`, yet the q-style classifier reports a deliverable
request — four deliverable hits outvote one conversational hit — and the
q-style endpoint takes the tool path, so conversational keywords do not
always win over deliverable keywords. -/
theorem c2_counterexample :
    Py.strContains (Py.pyLower "explica el diagrama de costos") "explica" = true ∧
    "explica" ∈ QStyle.simple_keywords ∧
    "explica" ∈ MainPy.bedrock_triggers ∧
    Py.strContains (Py.pyLower "explica el diagrama de costos") "diagrama" = true ∧
    "diagrama" ∈ QStyle.deliverable_keywords ∧
    (QStyle.analyze_intent "explica el diagrama de costos").intent =
      "deliverable_request" ∧
    QStyle.qstyle_use_mcp ⟨"explica el diagrama de costos", true, false, none⟩ = true ∧
    (QStyle.chat_endpoint ⟨"explica el diagrama de costos", true, false, none⟩ true
        (fun _ => false) "prompt" (.resp 200 [.text "done"]) ⟨true, "ok", ""⟩).calls =
      [.tool "explica el diagrama de costos"] := by
  refine ⟨by decide, by decide, by decide, by decide, by decide, by decide, by decide,
    by decide⟩

/-- C2 amended: in `main.py`, any conversational trigger in the lower-cased
message forces the direct path (conversational precedence holds there); in
`main_q_style.py`, the classifier reports a deliverable request exactly when
the deliverable keyword hits strictly outnumber the conversational keyword
hits (and there is at least one), so a message containing both kinds of
keywords takes the tool path whenever the deliverable hits win the count. -/
theorem c2_amended_precedence :
    (∀ msg : String,
      MainPy.bedrock_triggers.any (fun t => Py.strContains (Py.pyLower msg) t) = true →
      (MainPy.should_use_mcp msg).1 = false) ∧
    (∀ msg : String,
      (QStyle.analyze_intent msg).intent = "deliverable_request" ↔
        (QStyle.analyze_intent msg).simple_matches <
            (QStyle.analyze_intent msg).deliverable_matches ∧
          0 < (QStyle.analyze_intent msg).deliverable_matches) := by
  constructor
  · intro msg hany
    obtain ⟨t, ht, hp⟩ := List.any_eq_true.mp hany
    have hsome : (MainPy.bedrock_triggers.find?
        (fun t => Py.strContains (Py.pyLower msg) t)).isSome := by
      rw [List.find?_isSome]
      exact ⟨t, ht, hp⟩
    unfold MainPy.should_use_mcp
    cases hf : MainPy.bedrock_triggers.find? (fun t => Py.strContains (Py.pyLower msg) t) with
    | none => rw [hf] at hsome; cases hsome
    | some t0 => simp [hf]
  · intro msg
    simp only [QStyle.analyze_intent]
    by_cases h : ((QStyle.deliverable_keywords.filter
          (fun k => Py.strContains (Py.pyLower msg) k)).length >
        (QStyle.simple_keywords.filter
          (fun k => Py.strContains (Py.pyLower msg) k)).length ∧
        (QStyle.deliverable_keywords.filter
          (fun k => Py.strContains (Py.pyLower msg) k)).length > 0)
    · rw [if_pos (by simpa using h)]
      simpa using h
    · rw [if_neg (by simpa using h)]
      by_cases hs : ((QStyle.simple_keywords.filter
          (fun k => Py.strContains (Py.pyLower msg) k)).length > 0)
      · rw [if_pos (by simpa using hs)]
        simpa using h
      · rw [if_neg (by simpa using hs)]
        simpa using h

/-- Witness for C2 amended: `"hola"` matches a conversational trigger, so the
`main.py` classifier picks the direct path; the q-style classifier on
`"explica ec2"` has one conversational hit and no deliverable majority, so
it does not report a deliverable request. -/
theorem c2_amended_precedence_witness :
    (MainPy.bedrock_triggers.any
      (fun t => Py.strContains (Py.pyLower "hola") t) = true) ∧
    (MainPy.should_use_mcp "hola").1 = false ∧
    ¬ (QStyle.analyze_intent "explica ec2").intent = "deliverable_request" := by
  refine ⟨by decide, c2_amended_precedence.1 "hola" (by decide), ?_⟩
  intro hc
  have h := (c2_amended_precedence.2 "explica ec2").mp hc
  revert h
  decide

/-- C3 counterexample: in `main_optimized.py` a successful tool call whose
whole substantive text is `"ok"` (2 characters, far below the claimed
100-character usefulness threshold) is returned as the reply and no model
fallback happens — the outbound trace holds no Bedrock call at all — so the
claimed if-and-only-if fallback condition fails on that orchestrator. -/
theorem c3_counterexample :
    (MainOpt.chat_endpoint ⟨"necesito un diagrama", true, true⟩
        (.resp 200 ⟨none, some [⟨some "ok"⟩]⟩) (.ok "fallback text")).calls =
      [.mcp] ∧
    (MainOpt.chat_endpoint ⟨"necesito un diagrama", true, true⟩
        (.resp 200 ⟨none, some [⟨some "ok"⟩]⟩) (.ok "fallback text")).outcome =
      .mcpReply "ok" ∧
    ("ok".length ≤ 100) ∧
    ((MainOpt.chat_endpoint ⟨"necesito un diagrama", true, true⟩
        (.resp 200 ⟨none, some [⟨some "ok"⟩]⟩) (.ok "fallback text")).calls.count
      .bedrock = 0) := by
  refine ⟨by decide, by decide, by decide, by decide⟩

/-- C3 amended: in `main.py` the tool-path-to-fallback transition happens iff
the tool result fails or its stripped substantive text is not strictly longer
than 100 characters (`usableMcp` is exactly the no-error, has-content,
more-than-100-stripped-characters test); in `main_optimized.py` the
transition happens iff the tool result carries an error entry — a successful
short or empty response is returned as-is with no fallback. -/
theorem c3_amended_fallback_condition :
    (∀ (req : MainPy.MRequest) (h : HttpOutcome MainPy.McpResult)
        (b : Except String String),
      (MainPy.analysis_step req).use_mcp = true →
      (MainPy.analysis_step req).generate_deliverables = true →
      (MainPy.chat_endpoint req h b).calls =
        (if MainPy.usableMcp (MainPy.call_mcp_tool_async h) then [.mcp]
         else [.mcp, .bedrock])) ∧
    (∀ (req : MainPy.MRequest) (h : HttpOutcome MainPy.McpResult)
        (b : Except String String),
      (MainOpt.analysis_step req).use_mcp = true →
      (MainOpt.analysis_step req).generate_deliverables = true →
      (MainOpt.chat_endpoint req h b).calls =
        (if (MainPy.call_mcp_tool_async h).error.isNone then [.mcp]
         else [.mcp, .bedrock])) := by
  constructor
  · intro req h b hu hg
    simp only [MainPy.chat_endpoint, hu, hg, Bool.and_self, if_true]
    cases he : (MainPy.call_mcp_tool_async h).error with
    | some e0 =>
      simp only [MainPy.usableMcp, he]
      cases b <;> simp [MainPy.bedrockRun]
    | none =>
      cases hc : (MainPy.call_mcp_tool_async h).content with
      | none =>
        simp only [MainPy.usableMcp, he, hc]
        cases b <;> simp [MainPy.bedrockRun]
      | some items =>
        simp only [MainPy.usableMcp, he, hc]
        by_cases hus : MainPy.usableContent items = true
        · rw [if_pos hus, if_pos hus]
        · rw [if_neg hus, if_neg hus]
          cases b <;> simp [MainPy.bedrockRun]
  · intro req h b hu hg
    simp only [MainOpt.chat_endpoint, hu, hg, Bool.and_self, if_true]
    cases he : (MainPy.call_mcp_tool_async h).error with
    | some e0 =>
      simp only [he, Option.isNone_some, Bool.false_eq_true, if_false]
      cases b <;> simp [MainPy.bedrockRun]
    | none =>
      simp only [he, Option.isNone_none, if_true]

/-- Witness for C3 amended: the same short-content 200 response makes
`main.py` fall back (its stripped text `"ok"` fails the 100-character test)
while `main_optimized.py` keeps the tool reply. -/
theorem c3_amended_fallback_condition_witness :
    (MainPy.chat_endpoint ⟨"necesito un diagrama", true, true⟩
        (.resp 200 ⟨none, some [⟨some "ok"⟩]⟩) (.ok "fallback text")).calls =
      [.mcp, .bedrock] ∧
    (MainOpt.chat_endpoint ⟨"necesito un diagrama", true, true⟩
        (.resp 200 ⟨none, some [⟨some "ok"⟩]⟩) (.ok "fallback text")).calls =
      [.mcp] := by
  have h1 := c3_amended_fallback_condition.1 ⟨"necesito un diagrama", true, true⟩
    (.resp 200 ⟨none, some [⟨some "ok"⟩]⟩) (.ok "fallback text") (by decide) (by decide)
  have h2 := c3_amended_fallback_condition.2 ⟨"necesito un diagrama", true, true⟩
    (.resp 200 ⟨none, some [⟨some "ok"⟩]⟩) (.ok "fallback text") (by decide) (by decide)
  constructor
  · rw [h1]; decide
  · rw [h2]; decide

/-- C4 counterexample: two uploads through
`S3FileUploader.upload_file_content` in the same project scope and tool/file
type, with the same caller-supplied filename, get the SAME storage key even
at different timestamps and with different random suffixes — the key embeds
neither a timestamp nor a random suffix when a filename is supplied — so
storage keys are not always distinct and do not follow the claimed
`{category}/{project}/{tool}/{timestamp}_{random_suffix}_{original_filename}`
shape. -/
theorem c4_counterexample :
    S3Uploader.upload_file_content_key "text" (some "report.txt")
        "20250101_120000" "aaaaaaaa" =
      S3Uploader.upload_file_content_key "text" (some "report.txt")
        "20250101_120001" "bbbbbbbb" ∧
    S3Uploader.upload_file_content_key "text" (some "report.txt")
        "20250101_120000" "aaaaaaaa" =
      "proyectos/bedrock-playground/generated-files/text/report.txt" := by
  exact ⟨rfl, rfl⟩

/-- C4 amended: the `{timestamp}_{random_suffix}_{filename}` keys of
`upload_to_s3_sync` are distinct for any two uploads in the same project and
tool scope at the same timestamp whenever their random suffixes differ; but
`S3FileUploader.upload_file_content` with a caller-supplied filename produces
a key that ignores both the timestamp and the random suffix, so
identically-named uploads there always collide. -/
theorem c4_amended_key_uniqueness :
    (∀ (project tool : Option String) (ts f r1 r2 : String), r1 ≠ r2 →
      S3Utils.upload_to_s3_sync_key project tool ts r1 f ≠
        S3Utils.upload_to_s3_sync_key project tool ts r2 f) ∧
    (∀ (ft f ts1 id1 ts2 id2 : String), ¬ f.isEmpty →
      S3Uploader.upload_file_content_key ft (some f) ts1 id1 =
        S3Uploader.upload_file_content_key ft (some f) ts2 id2) := by
  constructor
  · intro project tool ts f r1 r2 hne heq
    apply hne
    have hd := congrArg String.data heq
    simp only [S3Utils.upload_to_s3_sync_key, String.data_append,
      List.append_assoc] at hd
    have hd1 := List.append_cancel_left hd
    have hd2 := List.append_cancel_left hd1
    have hd3 := List.append_cancel_left hd2
    have hd4 := List.append_cancel_left hd3
    have hd5 := List.append_cancel_left hd4
    have hd6 := List.append_cancel_left hd5
    have hdata : r1.data = r2.data := by simpa using hd6
    exact String.ext hdata
  · intro ft f ts1 id1 ts2 id2 hf
    simp only [S3Uploader.upload_file_content_key, if_neg hf]

/-- Witness for C4 amended: concrete same-timestamp keys with distinct
8-character suffixes differ, and concrete same-filename uploader keys agree. -/
theorem c4_amended_key_uniqueness_witness :
    S3Utils.upload_to_s3_sync_key (some "proj") (some "diagram") "20250101_120000"
        "aaaaaaaa" "arch.png" ≠
      S3Utils.upload_to_s3_sync_key (some "proj") (some "diagram") "20250101_120000"
        "bbbbbbbb" "arch.png" ∧
    S3Uploader.upload_file_content_key "diagram" (some "arch.png") "t1" "r1" =
      S3Uploader.upload_file_content_key "diagram" (some "arch.png") "t2" "r2" := by
  exact ⟨c4_amended_key_uniqueness.1 (some "proj") (some "diagram") "20250101_120000"
      "arch.png" "aaaaaaaa" "bbbbbbbb" (by decide),
    c4_amended_key_uniqueness.2 "diagram" "arch.png" "t1" "r1" "t2" "r2" (by decide)⟩

/-- C5 counterexample: a request with the explicit tool-use flag set to true
and the message `"hola"` still gets the direct path — the classifier decision
wins over the true override — and the recorded reason cites the matched
keyword, not the override; likewise a request with the deliverable flag set
to false and a deliverable-keyword message keeps deliverables on with a
keyword-citing reason.  So the caller-supplied booleans do not take
precedence in both directions and the reason does not always cite them. -/
theorem c5_counterexample :
    (MainPy.analysis_step ⟨"hola", true, false⟩).use_mcp = false ∧
    (MainPy.analysis_step ⟨"hola", true, false⟩).mcp_reason =
      "Consulta conversacional: \x27hola\x27" ∧
    (MainPy.analysis_step ⟨"necesito un diagrama", true, false⟩).generate_deliverables
      = true ∧
    (MainPy.analysis_step ⟨"necesito un diagrama", true, false⟩).deliverable_reason =
      "Entregables específicos: \x27diagrama\x27" := by
  refine ⟨by decide, by decide, by decide, by decide⟩

/-- C5 amended: the overrides are one-directional.  `use_mcp = false` always
forces the tool path off and is recorded as the reason; `generate_deliverables
= true` always forces deliverables on and is recorded as the reason; with
`use_mcp = true` the tool-path decision is the classifier output, and in the
q-style endpoint `generate_deliverables = true` forces the tool path on while
`use_mcp = false` together with `generate_deliverables = false` forces it
off. -/
theorem c5_amended_one_directional_overrides :
    (∀ req : MainPy.MRequest, req.use_mcp = false →
      (MainPy.analysis_step req).use_mcp = false ∧
      (MainPy.analysis_step req).mcp_reason = "Deshabilitado por usuario") ∧
    (∀ req : MainPy.MRequest, req.generate_deliverables = true →
      (MainPy.analysis_step req).generate_deliverables = true ∧
      (MainPy.analysis_step req).deliverable_reason = "Forzado por usuario") ∧
    (∀ req : MainPy.MRequest, req.use_mcp = true →
      (MainPy.analysis_step req).use_mcp = (MainPy.should_use_mcp req.message).1) ∧
    (∀ req : QStyle.QRequest, req.generate_deliverables = true →
      QStyle.qstyle_use_mcp req = true) ∧
    (∀ req : QStyle.QRequest, req.use_mcp = false → req.generate_deliverables = false →
      QStyle.qstyle_use_mcp req = false) := by
  refine ⟨?_, ?_, ?_, ?_, ?_⟩
  · intro req h
    simp [MainPy.analysis_step, h]
  · intro req h
    simp [MainPy.analysis_step, h]
  · intro req h
    simp [MainPy.analysis_step, h]
  · intro req h
    simp [QStyle.qstyle_use_mcp, h]
  · intro req hu hg
    simp [QStyle.qstyle_use_mcp, hu, hg]

/-- Witness for C5 amended: the off-override and on-override at concrete
requests, plus the q-style forced-on and forced-off cases. -/
theorem c5_amended_one_directional_overrides_witness :
    ((MainPy.analysis_step ⟨"necesito un diagrama", false, false⟩).use_mcp = false ∧
      (MainPy.analysis_step ⟨"necesito un diagrama", false, false⟩).mcp_reason =
        "Deshabilitado por usuario") ∧
    ((MainPy.analysis_step ⟨"hola", true, true⟩).generate_deliverables = true ∧
      (MainPy.analysis_step ⟨"hola", true, true⟩).deliverable_reason =
        "Forzado por usuario") ∧
    QStyle.qstyle_use_mcp ⟨"hola", true, true, none⟩ = true ∧
    QStyle.qstyle_use_mcp ⟨"crear diagrama", false, false, none⟩ = false := by
  exact ⟨c5_amended_one_directional_overrides.1 ⟨"necesito un diagrama", false, false⟩ rfl,
    c5_amended_one_directional_overrides.2.1 ⟨"hola", true, true⟩ rfl,
    c5_amended_one_directional_overrides.2.2.2.1 ⟨"hola", true, true, none⟩ rfl,
    c5_amended_one_directional_overrides.2.2.2.2 ⟨"crear diagrama", false, false, none⟩
      rfl rfl⟩

/-- C6 counterexample: on a 500 response, `mcp_client.call_mcp_tool` raises
an exception (modelled as `Except.error`) instead of returning a
ToolInvocationResult with `success = false` — the non-2xx status propagates
as an unhandled exception to the caller, contradicting the claim for this
tool client. -/
theorem c6_counterexample :
    McpClient.call_mcp_tool "generate_diagram" (fun _ => none)
        (.resp 500 "Internal Server Error" []) =
      Except.error "MCP error 500: Internal Server Error" := by
  rfl

/-- C6 amended: on a non-2xx (here: non-200) response the three tool clients
disagree — the q-style client returns `success = false` with the status in
the error field, the `main.py` client returns an error dictionary with the
status, and `mcp_client.py` raises an exception carrying the status and
response text instead of returning a failed result value. -/
theorem c6_amended_non2xx_behaviour :
    (∀ (s : Nat) (items : List QStyle.QItem), s ≠ 200 →
      QStyle.call_mcp_tool (.resp s items) =
        { success := false, error := some ("MCP HTTP " ++ toString s),
          content := "Error en procesamiento MCP" }) ∧
    (∀ (s : Nat) (payload : MainPy.McpResult), s ≠ 200 →
      MainPy.call_mcp_tool_async (.resp s payload) =
        { error := some ("MCP error: " ++ toString s), content := none }) ∧
    (∀ (tn : String) (parse : String → Option McpClient.JsonObj) (s : Nat)
        (text : String) (content : List McpClient.CItem), s ≠ 200 →
      McpClient.call_mcp_tool tn parse (.resp s text content) =
        Except.error ("MCP error " ++ toString s ++ ": " ++ text)) := by
  refine ⟨?_, ?_, ?_⟩
  · intro s items h
    simp [QStyle.call_mcp_tool, h]
  · intro s payload h
    simp [MainPy.call_mcp_tool_async, h]
  · intro tn parse s text content h
    simp [McpClient.call_mcp_tool, h]

/-- Witness for C6 amended: all three behaviours at status 503. -/
theorem c6_amended_non2xx_behaviour_witness :
    QStyle.call_mcp_tool (.resp 503 []) =
      { success := false, error := some ("MCP HTTP " ++ toString 503),
        content := "Error en procesamiento MCP" } ∧
    MainPy.call_mcp_tool_async (.resp 503 ⟨none, none⟩) =
      { error := some ("MCP error: " ++ toString 503), content := none } ∧
    McpClient.call_mcp_tool "generate_diagram" (fun _ => none)
        (.resp 503 "Service Unavailable" []) =
      Except.error ("MCP error " ++ toString 503 ++ ": " ++ "Service Unavailable") := by
  exact ⟨c6_amended_non2xx_behaviour.1 503 [] (by decide),
    c6_amended_non2xx_behaviour.2.1 503 ⟨none, none⟩ (by decide),
    c6_amended_non2xx_behaviour.2.2 "generate_diagram" (fun _ => none) 503
      "Service Unavailable" [] (by decide)⟩

/-- C7 counterexample: a 200 response whose `toolResult.content` holds two
`type = "text"` items, neither of which parses as JSON (the parse oracle
returns nothing, as `json.loads` would fail on these fragments), ends with
`raw_text = "Summary part two"`: the assignment in the typed-item branch
overwrites the first fragment instead of appending it, so the first non-JSON
fragment is lost, while the claimed newline-joined accumulation would give
both fragments. -/
theorem c7_counterexample :
    McpClient.dictGet
        (McpClient.scanContent (fun _ => none)
          [.typedText "Summary part one", .typedText "Summary part two"] [])
        "raw_text" = some "Summary part two" ∧
    McpClient.rawTextSpec (fun _ => none)
        [.typedText "Summary part one", .typedText "Summary part two"] =
      some ("Summary part one" ++ "\n" ++ "Summary part two") ∧
    ("Summary part two" : String) ≠ "Summary part one" ++ "\n" ++ "Summary part two" := by
  refine ⟨by decide, by decide, by decide⟩

/-- C7 amended: fragments that parse as JSON are merged into the structured
result; a non-JSON fragment of a `type = "text"` item overwrites `raw_text`
(the last such fragment wins), and only non-JSON fragments of untyped items
are appended newline-joined — for a run of untyped non-JSON fragments the
accumulator does hold all of them, in order, newline-joined. -/
theorem c7_amended_raw_text_semantics :
    (∀ (parse : String → Option McpClient.JsonObj) (t : String)
        (acc : McpClient.JsonObj) (rest : List McpClient.CItem), parse t = none →
      McpClient.scanContent parse (.typedText t :: rest) acc =
        McpClient.scanContent parse rest (McpClient.dictSet acc "raw_text" t)) ∧
    (∀ (parse : String → Option McpClient.JsonObj) (t : String)
        (acc : McpClient.JsonObj) (rest : List McpClient.CItem), parse t = some [] →
      McpClient.scanContent parse (.typedText t :: rest) acc =
        McpClient.scanContent parse rest acc) ∧
    (∀ (parse : String → Option McpClient.JsonObj) (t r : String)
        (acc : McpClient.JsonObj) (rest : List McpClient.CItem), parse t = none →
      McpClient.dictGet acc "raw_text" = some r →
      McpClient.scanContent parse (.untyped t :: rest) acc =
        McpClient.scanContent parse rest
          (McpClient.dictSet acc "raw_text" (r ++ "\n" ++ t))) ∧
    (∀ (parse : String → Option McpClient.JsonObj) (f : String) (fs : List String),
      (∀ t ∈ f :: fs, parse t = none) →
      McpClient.dictGet
          (McpClient.scanContent parse ((f :: fs).map McpClient.CItem.untyped) [])
          "raw_text" =
        some (fs.foldl (fun a b => a ++ "\n" ++ b) f)) := by
  refine ⟨?_, ?_, ?_, ?_⟩
  · intro parse t acc rest h
    simp [McpClient.scanContent, h]
  · intro parse t acc rest h
    simp [McpClient.scanContent, h, McpClient.dictUpdate]
  · intro parse t r acc rest h hr
    simp [McpClient.scanContent, h, hr]
  · intro parse f fs hall
    have hf : parse f = none := hall f (by simp)
    have hfs : ∀ x ∈ fs, parse x = none := fun x hx => hall x (by simp [hx])
    have hempty : McpClient.dictGet ([] : McpClient.JsonObj) "raw_text" = none := rfl
    simp only [List.map_cons, McpClient.scanContent, hf, hempty]
    exact McpClient.scan_untyped_fold parse fs _ f hfs
      (McpClient.dictGet_dictSet _ _ _)

/-- Witness for C7 amended: concrete instances of the overwrite step, the
JSON-merge skip, the append step, and the in-order accumulation of three
untyped fragments. -/
theorem c7_amended_raw_text_semantics_witness :
    McpClient.scanContent (fun _ => none) [.typedText "alpha"] [("status", "done")] =
      McpClient.dictSet [("status", "done")] "raw_text" "alpha" ∧
    McpClient.scanContent (fun _ => some []) [.typedText "alpha"] [("status", "done")] =
      [("status", "done")] ∧
    McpClient.scanContent (fun _ => none) [.untyped "beta"] [("raw_text", "alpha")] =
      McpClient.dictSet [("raw_text", "alpha")] "raw_text" ("alpha" ++ "\n" ++ "beta") ∧
    McpClient.dictGet
        (McpClient.scanContent (fun _ => none)
          ([("one" : String), "two", "three"].map McpClient.CItem.untyped) [])
        "raw_text" =
      some (["two", "three"].foldl (fun a b => a ++ "\n" ++ b) "one") := by
  exact ⟨c7_amended_raw_text_semantics.1 (fun _ => none) "alpha" [("status", "done")] []
      rfl,
    c7_amended_raw_text_semantics.2.1 (fun _ => some []) "alpha" [("status", "done")] []
      rfl,
    c7_amended_raw_text_semantics.2.2.1 (fun _ => none) "beta" "alpha"
      [("raw_text", "alpha")] [] rfl (by decide),
    c7_amended_raw_text_semantics.2.2.2 (fun _ => none) "one" ["two", "three"]
      (by intro t ht; rfl)⟩

/-- The method loop of `_get_file_content` agrees with a first-success scan
over the method results in order. -/
theorem FileHandler.tryMethods_findSome :
    ∀ (ms : List FileHandler.Method) (p : String),
      FileHandler.tryMethods ms p =
        (ms.map (fun m => m p)).findSome?
          (fun r => r.bind (fun c => if c.isEmpty then none else some c)) := by
  intro ms
  induction ms with
  | nil => intro p; rfl
  | cons m rest ih =>
    intro p
    simp only [FileHandler.tryMethods, List.map_cons, List.findSome?_cons]
    cases hm : m p with
    | none => simpa using ih p
    | some c =>
      by_cases hc : c.isEmpty
      · have hcn : c = [] := by simpa using hc
        simp [hc, hcn, ih p]
      · have hcn : ¬ c = [] := by simpa using hc
        simp [hc, hcn]

/-- C8: content resolution tries the local read, the URL fetch, and the
companion-endpoint read in that order and returns the first usable content
(`get_file_content` coincides with the first-success specification
`resolveSpec` on every input); when every method fails the result is nothing,
and a candidate that resolves to nothing is silently omitted from the
processed list while the remaining candidates are processed unchanged. -/
theorem c8_resolution_order_and_omission :
    (∀ (l u m : FileHandler.Method) (p : String),
      FileHandler.get_file_content l u m p = FileHandler.resolveSpec l u m p) ∧
    (∀ (l u m : FileHandler.Method) (p : String),
      l p = none → u p = none → m p = none →
      FileHandler.get_file_content l u m p = none) ∧
    (∀ (resolve : String → Option FileHandler.Bytes)
        (upload : String → FileHandler.Bytes → Option String)
        (pn ts uid : String) (bad : FileHandler.Candidate)
        (rest : List FileHandler.Candidate),
      resolve bad.path = none →
      FileHandler.process_files resolve upload pn ts uid (bad :: rest) =
        FileHandler.process_files resolve upload pn ts uid rest) := by
  refine ⟨?_, ?_, ?_⟩
  · intro l u m p
    unfold FileHandler.get_file_content FileHandler.resolveSpec
    rw [FileHandler.tryMethods_findSome]
    rfl
  · intro l u m p hl hu hm
    simp [FileHandler.get_file_content, FileHandler.tryMethods, hl, hu, hm]
  · intro resolve upload pn ts uid bad rest h
    simp [FileHandler.process_files, List.filterMap_cons,
      FileHandler.process_single_file, h]

/-- Witness for C8: with a failing local read and a succeeding URL fetch the
resolver returns the URL bytes; with all three failing it returns nothing;
and an unresolvable first candidate is dropped while the second is kept. -/
theorem c8_resolution_order_and_omission_witness :
    FileHandler.get_file_content (fun _ => none) (fun _ => some [137, 80])
        (fun _ => none) "/tmp/d.png" =
      FileHandler.resolveSpec (fun _ => none) (fun _ => some [137, 80])
        (fun _ => none) "/tmp/d.png" ∧
    FileHandler.get_file_content (fun _ => none) (fun _ => none) (fun _ => none)
      "/tmp/d.png" = none ∧
    FileHandler.process_files
        (fun p => if p = "gone.png" then none else some [1])
        (fun _ _ => some "https://bucket/url") "proj" "ts" "uid"
        [⟨"gone.png", ".png"⟩, ⟨"kept.png", ".png"⟩] =
      FileHandler.process_files
        (fun p => if p = "gone.png" then none else some [1])
        (fun _ _ => some "https://bucket/url") "proj" "ts" "uid"
        [⟨"kept.png", ".png"⟩] := by
  exact ⟨c8_resolution_order_and_omission.1 (fun _ => none) (fun _ => some [137, 80])
      (fun _ => none) "/tmp/d.png",
    c8_resolution_order_and_omission.2.1 (fun _ => none) (fun _ => none) (fun _ => none)
      "/tmp/d.png" rfl rfl rfl,
    c8_resolution_order_and_omission.2.2
      (fun p => if p = "gone.png" then none else some [1])
      (fun _ _ => some "https://bucket/url") "proj" "ts" "uid" ⟨"gone.png", ".png"⟩
      [⟨"kept.png", ".png"⟩] (by decide)⟩

/-- C10: in the q-style endpoint every outbound call — the tool call and the
model call — forwards the original `request.message` rather than the
sanitized copy, and even the intent analysis receives the original message
(the sanitized data produced by validation never leaves `validate_request`);
sanitization is not the identity on angle-bracket input, so a message
containing `<` or `>` reaches the downstream services unsanitized. -/
theorem c10_downstream_gets_original_message :
    (∀ (req : QStyle.QRequest) (rateOk : Bool) (dangerous : String → Bool)
        (csp : String) (mcp : HttpOutcome (List QStyle.QItem))
        (bed : QStyle.QBedrockResult),
      ∀ c ∈ (QStyle.chat_endpoint req rateOk dangerous csp mcp bed).calls,
        QStyle.QCall.msg c = req.message) ∧
    (∀ (req : QStyle.QRequest) (rateOk : Bool) (dangerous : String → Bool)
        (csp : String) (mcp : HttpOutcome (List QStyle.QItem))
        (bed : QStyle.QBedrockResult),
      (QStyle.chat_endpoint req rateOk dangerous csp mcp bed).intentInput = none ∨
      (QStyle.chat_endpoint req rateOk dangerous csp mcp bed).intentInput =
        some req.message) ∧
    SecurityEnh.sanitize_string "<explica aws>" = "&lt;explica aws&gt;" ∧
    ("&lt;explica aws&gt;" : String) ≠ "<explica aws>" := by
  refine ⟨?_, ?_, by decide, by decide⟩
  · intro req rateOk dangerous csp mcp bed c hc
    unfold QStyle.chat_endpoint at hc
    by_cases hv : (!(SecurityEnh.validate_request rateOk dangerous req.message).valid)
        = true
    · rw [if_pos hv] at hc
      simp at hc
    · rw [if_neg hv] at hc
      by_cases hq : QStyle.qstyle_use_mcp req = true
      · rw [if_pos hq] at hc
        by_cases hs : (QStyle.call_mcp_tool mcp).success = true
        · rw [if_pos hs] at hc
          simp at hc
          rw [hc]
          rfl
        · rw [if_neg hs] at hc
          by_cases hb : bed.success = true
          · rw [if_pos hb] at hc
            simp at hc
            rcases hc with hc | hc <;> rw [hc] <;> rfl
          · rw [if_neg hb] at hc
            simp at hc
            rcases hc with hc | hc <;> rw [hc] <;> rfl
      · rw [if_neg hq] at hc
        by_cases hb : bed.success = true
        · rw [if_pos hb] at hc
          simp at hc
          rw [hc]
          rfl
        · rw [if_neg hb] at hc
          simp at hc
          rw [hc]
          rfl
  · intro req rateOk dangerous csp mcp bed
    unfold QStyle.chat_endpoint
    by_cases hv : (!(SecurityEnh.validate_request rateOk dangerous req.message).valid)
        = true
    · rw [if_pos hv]
      exact Or.inl rfl
    · rw [if_neg hv]
      by_cases hq : QStyle.qstyle_use_mcp req = true
      · rw [if_pos hq]
        by_cases hs : (QStyle.call_mcp_tool mcp).success = true
        · rw [if_pos hs]; exact Or.inr rfl
        · rw [if_neg hs]
          by_cases hb : bed.success = true
          · rw [if_pos hb]; exact Or.inr rfl
          · rw [if_neg hb]; exact Or.inr rfl
      · rw [if_neg hq]
        by_cases hb : bed.success = true
        · rw [if_pos hb]; exact Or.inr rfl
        · rw [if_neg hb]; exact Or.inr rfl

/-- Witness for C10: a concrete request whose message contains angle brackets
(so its sanitized form differs) still hands that exact message to the Bedrock
call. -/
theorem c10_downstream_gets_original_message_witness :
    QStyle.QCall.msg (QStyle.QCall.bedrock "<explica aws>" "prompt") =
      "<explica aws>" := by
  exact c10_downstream_gets_original_message.1 ⟨"<explica aws>", true, false, none⟩
    true (fun _ => false) "prompt" (.resp 200 []) ⟨true, "reply", ""⟩
    (QStyle.QCall.bedrock "<explica aws>" "prompt") (by decide)
